import Mathlib

/-!
# Verification of the balance-aggregator core (src/index.js)

Shallow embedding of the balance resolution engine of the repository
digitz20/aggregratorserver.  The source bundle contains three near-identical
file variants; the claim line references resolve to the third variant
(providers `usdtTRCProvider` at lines 338-397, `usdtTRCProviderTronGrid` at
399-436, `safeFetch` at 314-326, `getBalanceFromProviders` at 443-462,
`getBalance` at 465-475, `tryProviders` at 477-501, the Express routes at
504-523) together with the first variant's `usdtERCProvider` (lines 43-70).

Modelling conventions:
* JavaScript JSON values are the inductive `JsonV`; numbers are idealized as
  exact rationals (`ℚ`).  IEEE-754 rounding is outside the model; claims that
  depend only on branch structure are unaffected by this idealization.
* `undefined` is `Option.none` (a missing field); JS `null` is `JsonV.null`.
* Promise rejection / thrown exceptions are represented by `Except.error`
  values or distinguished constructors, as documented at each definition.
* Each definition mirrors one expression or statement of src/index.js; the
  source line is cited in its doc comment.
-/

/-- JSON-like JavaScript values as produced by `res.json()`.  Numbers are
idealized as exact rationals. -/
inductive JsonV : Type where
  | null : JsonV
  | bool : Bool → JsonV
  | num : ℚ → JsonV
  | str : String → JsonV
  | arr : List JsonV → JsonV
  | obj : List (String × JsonV) → JsonV

/-- JS property access `v.k`: `some` the field value, `none` for `undefined`
(missing field or non-object receiver).  Property access on `null` throws in
JS; no modelled code path reads a field off a `null` receiver after the
source's `||`/`??` guards, so the receiver cases collapse to `undefined`. -/
def JsonV.get (v : JsonV) (k : String) : Option JsonV :=
  match v with
  | .obj fs => fs.lookup k
  | _ => none

/-- JS falsiness of a value: `null`, `false`, `0`, and `""` are falsy
(`undefined` and `NaN` are handled where they can occur). -/
def jsFalsyV : JsonV → Bool
  | .null => true
  | .bool b => !b
  | .num q => q == 0
  | .str s => s.isEmpty
  | _ => false

/-- JS `x || d` where `x` is a property access (`undefined` possible). -/
def jsOrOpt (x : Option JsonV) (d : JsonV) : JsonV :=
  match x with
  | none => d
  | some v => if jsFalsyV v then d else v

/-- JS `a || b` between two values. -/
def jsOrVV (a b : JsonV) : JsonV := if jsFalsyV a then b else a

/-- JS nullish coalescing `x ?? d`: `d` exactly when `x` is `undefined` or
`null`. -/
def jsNn (x : Option JsonV) (d : JsonV) : JsonV :=
  match x with
  | none => d
  | some .null => d
  | some v => v

/-- JS optional chaining `t.k1?.k2`: `undefined` when `t.k1` is nullish. -/
def jsOptChain (t : JsonV) (k1 k2 : String) : Option JsonV :=
  match t.get k1 with
  | none => none
  | some .null => none
  | some v => v.get k2

/-- JS number-to-string for the integral values that occur in the payloads
(e.g. numeric token ids such as `1002000`).  Non-integral rationals use the
Lean `Rat` rendering; no modelled input exercises that case. -/
def jsNumToString (q : ℚ) : String :=
  if q.den = 1 then toString q.num else toString q

/-- JS string conversion `String(v)` / `v.toString()`.  Array stringification
is modelled only for the empty array (`String([]) = ""`); nonempty-array
joining is not exercised by any claim. -/
def jsToString : JsonV → String
  | .null => "null"
  | .bool b => if b then "true" else "false"
  | .num q => jsNumToString q
  | .str s => s
  | .arr _ => ""
  | .obj _ => "[object Object]"

/-- ASCII uppercase of one character.  All symbol/contract strings in the
modelled payloads are ASCII, where this agrees with JS `toUpperCase`. -/
def upChar (c : Char) : Char :=
  if 97 ≤ c.toNat && c.toNat ≤ 122 then Char.ofNat (c.toNat - 32) else c

/-- ASCII `s.toUpperCase()`. -/
def strUpper (s : String) : String := String.mk (s.data.map upChar)

/-- ASCII lowercase of one character. -/
def downChar (c : Char) : Char :=
  if 65 ≤ c.toNat && c.toNat ≤ 90 then Char.ofNat (c.toNat + 32) else c

/-- ASCII `s.toLowerCase()`. -/
def strLower (s : String) : String := String.mk (s.data.map downChar)

/-- Numeric value of a digit list, most significant first. -/
def digitsVal (cs : List Char) : ℕ :=
  cs.foldl (fun a c => 10 * a + (c.toNat - 48)) 0

/-- Strip leading and trailing whitespace (JS `Number` trims its argument). -/
def wsTrim (cs : List Char) : List Char :=
  ((cs.dropWhile Char.isWhitespace).reverse.dropWhile Char.isWhitespace).reverse

/-- Split an optional leading sign off a numeric literal. -/
def splitSign (cs : List Char) : Bool × List Char :=
  match cs with
  | [] => (false, [])
  | c :: r => if c = '-' then (true, r) else if c = '+' then (false, r) else (false, c :: r)

/-- Strict decimal-literal parse, as performed by JS `Number(string)` on the
shapes occurring in balance payloads: `[sign] digits [. digits]`.  Returns
`none` for NaN.  Exponent and hex forms are not exercised by any claim and
parse to NaN here. -/
def parseDecCore (cs : List Char) : Option ℚ :=
  let p := splitSign cs
  let ip := p.2.takeWhile Char.isDigit
  let rest2 := p.2.dropWhile Char.isDigit
  match rest2 with
  | [] =>
    if ip.isEmpty then none
    else some ((if p.1 then -1 else 1) * (digitsVal ip : ℚ))
  | '.' :: fp =>
    if fp.all Char.isDigit && (!ip.isEmpty || !fp.isEmpty) then
      some ((if p.1 then -1 else 1) *
        ((digitsVal ip * 10 ^ fp.length + digitsVal fp : ℕ) : ℚ) / (10 ^ fp.length : ℚ))
    else none
  | _ => none

/-- JS `Number(v)`.  `none` is NaN.  Single-element-array coercion
(`Number([x])`) is not modelled (unexercised); such arrays map to NaN. -/
def jsNumber : JsonV → Option ℚ
  | .null => some 0
  | .bool b => some (if b then 1 else 0)
  | .num q => some q
  | .str s =>
    let t := wsTrim s.data
    if t.isEmpty then some 0 else parseDecCore t
  | .arr [] => some 0
  | .arr _ => none
  | .obj _ => none

/-- Longest-prefix float parse, as performed by JS `parseFloat` on strings:
`[sign] digits [. digits]` read greedily, NaN if no digit is found. -/
def parseFloatCore (cs : List Char) : Option ℚ :=
  let p := splitSign cs
  let ip := p.2.takeWhile Char.isDigit
  let rest2 := p.2.dropWhile Char.isDigit
  let fp := match rest2 with
    | '.' :: r => r.takeWhile Char.isDigit
    | _ => []
  if ip.isEmpty && fp.isEmpty then none
  else some ((if p.1 then -1 else 1) *
    ((digitsVal ip * 10 ^ fp.length + digitsVal fp : ℕ) : ℚ) / (10 ^ fp.length : ℚ))

/-- JS `parseFloat(v)` on the value shapes reaching it in the source
(numbers and strings); other shapes map to NaN. -/
def jsParseFloat : JsonV → Option ℚ
  | .num q => some q
  | .str s => parseFloatCore (s.data.dropWhile Char.isWhitespace)
  | _ => none

/-- JS `x || d` on a possibly-NaN number (`Number(...) || 6` in the source):
the default replaces NaN and `0`. -/
def jsOrNum (x : Option ℚ) (d : ℚ) : ℚ :=
  match x with
  | none => d
  | some q => if q = 0 then d else q

/-- Source: `Math.pow(10, d)` for the (integral) decimals values reaching it.
Non-integral exponents are not produced by any well-formed decimals field and
are mapped to a junk value. -/
def qPow10 (d : ℚ) : ℚ := if d.den = 1 then (10 : ℚ) ^ d.num else 0

/-- JS `s.replace(/[^0-9]/g, "")`: keep only decimal digits. -/
def filterDigits (s : String) : String := String.mk (s.data.filter Char.isDigit)

/-- Source: `BigInt(s)` on an all-digit string: exact integer value. -/
def digitsToNat (s : String) : ℕ := digitsVal s.data

/-- Result object of the TRC-20 normalizers
(`{ balance, status, reason? }`, src/index.js lines 372, 382, 387, 389, 392,
394). -/
structure TrcResult where
  balance : ℚ
  status : String
  reason : Option String
deriving DecidableEq, Repr

/-- Source: `knownTokenIds` (src/index.js lines 343-346). -/
def knownTokenIds : List String :=
  ["TXLAQ63Xg1NAzckPwKHvzw7CSEmLMEqcdj", "1002000"]

/-- Symbol candidate chain of `usdtTRCProvider.parse`
(`(t.symbol || t.tokenName || t.key || t.name || "").toString().toUpperCase()`,
line 365). -/
def trcSymbol (t : JsonV) : String :=
  strUpper (jsToString (jsOrOpt (t.get "symbol") (jsOrOpt (t.get "tokenName")
    (jsOrOpt (t.get "key") (jsOrOpt (t.get "name") (.str ""))))))

/-- Token-id candidate chain of `usdtTRCProvider.parse`
(`(t.tokenId || t.contract || t.key || t.token_id || "").toString()`,
line 366). -/
def trcTokenId (t : JsonV) : String :=
  jsToString (jsOrOpt (t.get "tokenId") (jsOrOpt (t.get "contract")
    (jsOrOpt (t.get "key") (jsOrOpt (t.get "token_id") (.str "")))))

/-- Match predicate of `usdtTRCProvider.parse`
(`symbol === "USDT" || knownTokenIds.has(tokenId) || tokenId === "TXLAQ..."`,
line 368). -/
def trcMatch (t : JsonV) : Bool :=
  trcSymbol t == "USDT" || knownTokenIds.contains (trcTokenId t) ||
    trcTokenId t == "TXLAQ63Xg1NAzckPwKHvzw7CSEmLMEqcdj"

/-- Source: `t && typeof t === "object"` (line 360): objects and arrays pass, `null`
and primitives are replaced by `null` and dropped by `.filter(Boolean)`. -/
def isObjectLike : JsonV → Bool
  | .obj _ => true
  | .arr _ => true
  | _ => false

/-- Source: `const payload = data.data || data || {}` (line 351). -/
def trcPayloadOf (data : JsonV) : JsonV :=
  jsOrVV (jsOrOpt (data.get "data") data) (.obj [])

/-- Source: `payload.trc20 || payload.tokens || payload.tokenBalances ||
payload.trc20Tokens || payload.assetV2 || []` (lines 354-355). -/
def trcCandidates (data : JsonV) : JsonV :=
  let payload := trcPayloadOf data
  jsOrOpt (payload.get "trc20") (jsOrOpt (payload.get "tokens")
    (jsOrOpt (payload.get "tokenBalances") (jsOrOpt (payload.get "trc20Tokens")
      (jsOrOpt (payload.get "assetV2") (.arr [])))))

/-- Source: `(candidates || []).map(...).filter(Boolean)` (lines 358-362).  `none`
models the TypeError thrown by `.map` on a truthy non-array, which the outer
`try` converts into a failure result. -/
def trcTokens (data : JsonV) : Option (List JsonV) :=
  match jsOrVV (trcCandidates data) (.arr []) with
  | .arr l => some (l.filter isObjectLike)
  | _ => none

/-- Source: `token.balance ?? token.value ?? token.amount ?? token.balanceStr ??
token.value_str ?? token.valueString ?? 0` (line 376). -/
def trcRawBalance (t : JsonV) : JsonV :=
  jsNn (t.get "balance") (jsNn (t.get "value") (jsNn (t.get "amount")
    (jsNn (t.get "balanceStr") (jsNn (t.get "value_str")
      (jsNn (t.get "valueString") (.num 0))))))

/-- Source: `Number(token.decimals ?? token.tokenDecimal ?? token.decimals_str ?? 6)
|| 6` (line 377).  Note the trailing `|| 6`: a parsed value of `0` (and NaN)
is replaced by the default `6`. -/
def trcDecimals (t : JsonV) : ℚ :=
  jsOrNum (jsNumber (jsNn (t.get "decimals") (jsNn (t.get "tokenDecimal")
    (jsNn (t.get "decimals_str") (.num 6))))) 6

/-- The guard `isNaN(numeric)` (line 379) deciding whether the BigInt
fallback branch of the TRC normalizers runs: the fallback is taken exactly
when the direct `Number` parse of the raw balance is NaN. -/
def trcUsesFallback (rawBalance : JsonV) : Bool := (jsNumber rawBalance).isNone

/-- Numeric-conversion tail shared verbatim by `usdtTRCProvider.parse`
(lines 378-392) and `usdtTRCProviderTronGrid.parse` (lines 419-431):
direct `Number` parse, else strip non-digits, `BigInt` parse, scale by
`10^decimals`.  In the exact-rational model `Number(big)` is lossless and
`isFinite(scaled)` always holds, so the fallback's `isFinite` test is not a
branch here. -/
def trcNumericResult (rawBalance : JsonV) (decimals : ℚ) : TrcResult :=
  match jsNumber rawBalance with
  | some numeric => ⟨numeric / qPow10 decimals, "success", none⟩
  | none =>
    let asString := filterDigits (jsToString (jsOrVV rawBalance (.str "0")))
    if asString.isEmpty then ⟨0, "failed", some "Invalid balance format"⟩
    else ⟨(digitsToNat asString : ℚ) / qPow10 decimals, "success", none⟩

/-- Source: `usdtTRCProvider.parse` (src/index.js lines 341-396) applied to the
parsed response body.  The whole body is wrapped in `try/catch` in the
source, so it never throws; the `.map`-on-non-array TypeError path surfaces
as a failure whose reason is the engine-dependent exception text, modelled
by the fixed string "TypeError" (no theorem depends on that text). -/
def trcParse (data : JsonV) : TrcResult :=
  match trcTokens data with
  | none => ⟨0, "failed", some "TypeError"⟩
  | some tokens =>
    match tokens.find? trcMatch with
    | none => ⟨0, "failed", some "USDT token not found"⟩
    | some t => trcNumericResult (trcRawBalance t) (trcDecimals t)

/-- Symbol chain of `usdtTRCProviderTronGrid.parse`
(`(t.tokenAbbr || t.tokenName || t.symbol || t.key || "")`, line 410). -/
def tgSymbol (t : JsonV) : String :=
  strUpper (jsToString (jsOrOpt (t.get "tokenAbbr") (jsOrOpt (t.get "tokenName")
    (jsOrOpt (t.get "symbol") (jsOrOpt (t.get "key") (.str ""))))))

/-- Token-id chain of `usdtTRCProviderTronGrid.parse`
(`(t.contract || t.tokenId || t.key || "").toString().toUpperCase()`,
line 411). -/
def tgTokenId (t : JsonV) : String :=
  strUpper (jsToString (jsOrOpt (t.get "contract") (jsOrOpt (t.get "tokenId")
    (jsOrOpt (t.get "key") (.str "")))))

/-- Match predicate of `usdtTRCProviderTronGrid.parse` (line 412). -/
def tgMatch (t : JsonV) : Bool :=
  tgSymbol t == "USDT" || tgTokenId t == "TXLAQ63XG1NAZCKPWKHVZW7CSEMLMEQCDJ"

/-- Source: `const tokens = data.data || data || []` then `(tokens || []).find`
(lines 407-409); `none` models the TypeError of `.find` on a truthy
non-array. -/
def tgTokens (data : JsonV) : Option (List JsonV) :=
  match jsOrVV (jsOrOpt (data.get "data") data) (.arr []) with
  | .arr l => some l
  | _ => none

/-- Source: `token.balance ?? token.value ?? token.amount ?? token.quantity ?? 0`
(line 417). -/
def tgRawBalance (t : JsonV) : JsonV :=
  jsNn (t.get "balance") (jsNn (t.get "value") (jsNn (t.get "amount")
    (jsNn (t.get "quantity") (.num 0))))

/-- Source: `Number(token.tokenDecimal ?? token.decimals ?? token.tokenDecimal ?? 6)
|| 6` (line 418; `tokenDecimal` really appears twice in the source). -/
def tgDecimals (t : JsonV) : ℚ :=
  jsOrNum (jsNumber (jsNn (t.get "tokenDecimal") (jsNn (t.get "decimals")
    (jsNn (t.get "tokenDecimal") (.num 6))))) 6

/-- Source: `usdtTRCProviderTronGrid.parse` (src/index.js lines 403-435). -/
def tronGridParse (data : JsonV) : TrcResult :=
  match tgTokens data with
  | none => ⟨0, "failed", some "TypeError"⟩
  | some tokens =>
    match tokens.find? tgMatch with
    | none => ⟨0, "failed", some "USDT token not found"⟩
    | some t => trcNumericResult (tgRawBalance t) (tgDecimals t)

/-- Match predicate of `usdtERCProvider.parse` (src/index.js lines 51-59):
symbol from `tokenInfo.symbol || t.symbol`, case-insensitive, or the USDT
contract address, lowercased. -/
def ercMatch (t : JsonV) : Bool :=
  let ti := jsOrOpt (t.get "tokenInfo") (.obj [])
  let symbol := strUpper (jsToString (jsOrOpt (ti.get "symbol")
    (jsOrOpt (t.get "symbol") (.str ""))))
  let addr := strLower (jsToString (jsOrOpt (ti.get "address") (.str "")))
  symbol == "USDT" || addr == "0xdac17f958d2ee523a2206206994597c13d831ec7"

/-- Source: `const tokens = data.tokens || []` (line 50) followed by `.find`; `none`
models the TypeError of `.find` on a truthy non-array. -/
def ercTokens (data : JsonV) : Option (List JsonV) :=
  match jsOrOpt (data.get "tokens") (.arr []) with
  | .arr l => some l
  | _ => none

/-- Source: `token.balance ?? token.tokenInfo?.balance ?? 0` (line 64). -/
def ercRawBalance (t : JsonV) : JsonV :=
  jsNn (t.get "balance") (jsNn (jsOptChain t "tokenInfo" "balance") (.num 0))

/-- Source: `Number(token.tokenInfo?.decimals ?? token.decimals ?? 6) || 6`
(line 65): same `|| 6` pattern, so `0` decimals are replaced by `6`. -/
def ercDecimals (t : JsonV) : ℚ :=
  jsOrNum (jsNumber (jsNn (jsOptChain t "tokenInfo" "decimals")
    (jsNn (t.get "decimals") (.num 6)))) 6

/-- Source: `usdtERCProvider.parse` (src/index.js lines 47-69).  The body has no
`try/catch`, so a thrown TypeError propagates to the caller: `none` models
the throw.  On no match or unparseable balance the source returns the bare
number `0` (lines 61 and 67), not a structured failure. -/
def ercParse (data : JsonV) : Option ℚ :=
  match ercTokens data with
  | none => none
  | some tokens =>
    match tokens.find? ercMatch with
    | none => some 0
    | some t =>
      match jsParseFloat (ercRawBalance t) with
      | none => some 0
      | some numeric => some (numeric / qPow10 (ercDecimals t))

/-- Outcome of one `fetch(p.url(address))` call in `tryProviders`
(line 480): the promise rejects, resolves with `!res.ok`, or resolves with a
parsed JSON body. -/
inductive FetchOutcome : Type where
  | throw : FetchOutcome
  | notOk : FetchOutcome
  | ok : JsonV → FetchOutcome

/-- Value produced by `await p.parse(res, address)` (line 482): a thrown
exception, `null`, a number (`none` = NaN), or an object carrying a `status`
field. -/
inductive ParseOutcome : Type where
  | threw : ParseOutcome
  | nullRes : ParseOutcome
  | numRes : Option ℚ → ParseOutcome
  | objRes : TrcResult → ParseOutcome

/-- One provider of the set handed to `tryProviders`, together with the
behaviour of the external `fetch` capability on this invocation. -/
structure ProviderRun where
  name : String
  fetch : FetchOutcome
  parse : JsonV → ParseOutcome

/-- The object `tryProviders` resolves with (lines 487, 490, 494, 500):
`balance` is `none` for JS `null`, `reason`/`source` as in the source. -/
structure TryResult where
  balance : Option ℚ
  status : String
  reason : Option String
  source : String
deriving DecidableEq, Repr

/-- Source: `tryProviders` (src/index.js lines 477-501), instrumented with the
number of `fetch` calls performed (second component).  A structured result
object with a `status` field is returned immediately, success or failure
(lines 484-491); only a thrown fetch, a non-ok response, a thrown parse, or
a `null`/NaN non-object result falls through to the next provider; after the
loop the aggregate `"All providers failed"` result is returned. -/
def tryProvidersRun : List ProviderRun → TryResult × ℕ
  | [] => (⟨none, "failed", none, "All providers failed"⟩, 0)
  | p :: rest =>
    let skip :=
      let t := tryProvidersRun rest
      (t.1, t.2 + 1)
    match p.fetch with
    | .throw => skip
    | .notOk => skip
    | .ok body =>
      match p.parse body with
      | .objRes r =>
        if r.status = "success" then (⟨some r.balance, "success", none, p.name⟩, 1)
        else (⟨some r.balance, "failed", r.reason, p.name⟩, 1)
      | .numRes (some q) => (⟨some q, "success", none, p.name⟩, 1)
      | .numRes none => skip
      | .nullRes => skip
      | .threw => skip

/-- Source: `usdtTRCProvider.name` (line 339). -/
def trcProviderName : String := "Tron (TronScan/TronGrid)"

/-- Source: `usdtTRCProviderTronGrid.name` (line 401). -/
def tgProviderName : String := "TronGrid (TRC20)"

/-- Source: `usdtERCProvider.name` (line 44). -/
def ercProviderName : String := "Ethplorer (ERC20)"

/-- Source: `usdtTRCProvider` as a member of a `tryProviders` set: its parse always
yields a structured result object. -/
def trcProviderRun (f : FetchOutcome) : ProviderRun :=
  ⟨trcProviderName, f, fun b => .objRes (trcParse b)⟩

/-- Source: `usdtTRCProviderTronGrid` as a member of a `tryProviders` set. -/
def tgProviderRun (f : FetchOutcome) : ProviderRun :=
  ⟨tgProviderName, f, fun b => .objRes (tronGridParse b)⟩

/-- Source: `usdtERCProvider.parse` seen by `tryProviders`: a bare number on the
normal paths, a thrown exception (modelled by `ercParse = none`) otherwise. -/
def ercProviderOutcome (b : JsonV) : ParseOutcome :=
  match ercParse b with
  | none => .threw
  | some q => .numRes (some q)

/-- Source: `usdtERCProvider` as a member of a `tryProviders` set. -/
def ercProviderRun (f : FetchOutcome) : ProviderRun :=
  ⟨ercProviderName, f, ercProviderOutcome⟩

/-- Serialized body of the token routes
(`res.json({ chain: ..., ...result })`, lines 516 and 522). -/
structure ChainBody where
  chain : String
  balance : Option ℚ
  status : String
  reason : Option String
  source : String
deriving DecidableEq, Repr

/-- Route handler `app.get("/balance/usdt/trc/:address")` (lines 519-523):
`tryProviders([usdtTRCProvider, usdtTRCProviderTronGrid], address)` spread
into a response with `chain: "USDT-TRC20"`.  The handler keeps no state
between requests: every invocation runs `tryProviders` afresh.  The second
component counts the `fetch` network calls of this invocation. -/
def usdtTrcRoute (f1 f2 : FetchOutcome) : ChainBody × ℕ :=
  let r := tryProvidersRun [trcProviderRun f1, tgProviderRun f2]
  (⟨"USDT-TRC20", r.1.balance, r.1.status, r.1.reason, r.1.source⟩, r.2)

/-- Route handler `app.get("/balance/usdt/erc/:address")` (lines 514-517). -/
def usdtErcRoute (f : FetchOutcome) : ChainBody × ℕ :=
  let r := tryProvidersRun [ercProviderRun f]
  (⟨"USDT-ERC20", r.1.balance, r.1.status, r.1.reason, r.1.source⟩, r.2)

/-- Trace of one `safeFetch` call: final result (`Except.error` models the
thrown `Error`), number of fetch attempts performed, and the chronological
list of backoff delays slept (milliseconds). -/
structure SafeFetchTrace where
  result : Except String JsonV
  attemptsMade : ℕ
  delays : List ℕ

/-- Loop body of `safeFetch` (lines 315-324): attempt `i`; a successful
2xx+JSON attempt returns its body, any failure sleeps `1000 * (i + 1)` ms
and continues.  `attempts i = none` covers a thrown fetch, a non-ok status,
and a failing `res.json()` alike — all are absorbed by the same catch/log
path and never surfaced individually. -/
def safeFetchGo (attempts : ℕ → Option JsonV) : ℕ → ℕ → SafeFetchTrace
  | 0, _ => ⟨.error "All retries failed", 0, []⟩
  | fuel + 1, i =>
    match attempts i with
    | some body => ⟨.ok body, 1, []⟩
    | none =>
      let t := safeFetchGo attempts fuel (i + 1)
      ⟨t.result, t.attemptsMade + 1, 1000 * (i + 1) :: t.delays⟩

/-- Source: `safeFetch(url, retries = 3)` (src/index.js lines 314-326). -/
def safeFetch (attempts : ℕ → Option JsonV) (retries : ℕ := 3) : SafeFetchTrace :=
  safeFetchGo attempts retries 0

/-- One native-coin provider as tried by `getBalanceFromProviders`: the
`safeFetch` outcome for its URL (`Except.error` = all retries exhausted /
fetch threw) and its `parser` (returning `null` = `none` when the expected
field is missing). -/
structure NativeRun where
  fetch : Except String JsonV
  parser : JsonV → Option ℚ

/-- Source: `getBalanceFromProviders` (src/index.js lines 443-462) over an
already-shuffled provider list (the source shuffles with a random comparator
before this loop; the model takes the resulting order as input).  A thrown
`safeFetch` is caught and the next provider tried; a `null` parse also falls
through; exhaustion throws `"All providers failed."` — modelled as
`Except.error`, i.e. an exception, not a structured result.  The
inter-provider jitter sleep does not affect the result and is not
modelled. -/
def getBalanceFromProviders : List NativeRun → Except String ℚ
  | [] => .error "All providers failed."
  | r :: rest =>
    match r.fetch with
    | .error _ => getBalanceFromProviders rest
    | .ok data =>
      match r.parser data with
      | some b => .ok b
      | none => getBalanceFromProviders rest

/-- One entry of the `cache` map: `{ value, time }` (line 473). -/
structure CacheEntry where
  value : ℚ
  time : ℤ
deriving DecidableEq

/-- The `cache` map (line 439), keyed by address. -/
def Cache : Type := String → Option CacheEntry

/-- Source: `cache.set(address, { value, time })` (line 473). -/
def cacheSet (c : Cache) (k : String) (e : CacheEntry) : Cache :=
  fun a => if a = k then some e else c a

/-- Source: `CACHE_TTL = 60 * 1000` (line 440). -/
def CACHE_TTL : ℤ := 60 * 1000

/-- Source: `getBalance` (src/index.js lines 465-475): fresh cache hit returns the
cached value without resolving; otherwise the resolver runs, and only a
successful resolution writes the cache (a thrown resolution skips
`cache.set` and propagates).  Returns (result, cache after the call,
whether the resolver was invoked). -/
def getBalance (address : String) (now : ℤ) (c : Cache) (runs : List NativeRun) :
    Except String ℚ × Cache × Bool :=
  match c address with
  | some e =>
    if now - e.time < CACHE_TTL then (.ok e.value, c, false)
    else
      match getBalanceFromProviders runs with
      | .ok v => (.ok v, cacheSet c address ⟨v, now⟩, true)
      | .error m => (.error m, c, true)
  | none =>
    match getBalanceFromProviders runs with
    | .ok v => (.ok v, cacheSet c address ⟨v, now⟩, true)
    | .error m => (.error m, c, true)

/-- Serialized response of the native route: the success body
`{ address, balance, cached: false }` or the 500 error body (lines 508-510). -/
inductive RouteOut : Type where
  | okBody : String → ℚ → Bool → RouteOut
  | errBody : ℕ → String → RouteOut
deriving DecidableEq

/-- Route handler `app.get("/balance/:address")` (src/index.js lines
504-512): the `cached` field of the success body is the literal `false`
regardless of whether `getBalance` hit the cache. -/
def balanceRoute (address : String) (now : ℤ) (c : Cache) (runs : List NativeRun) :
    RouteOut × Cache :=
  match getBalance address now c runs with
  | (.ok b, c2, _) => (.okBody address b false, c2)
  | (.error m, c2, _) => (.errBody 500 m, c2)

/-- A provider outcome on which the `tryProviders` loop advances to the next
provider: thrown fetch, non-ok response, thrown parse, or a `null`/NaN
non-object result (catch at line 496 resp. fall-through at line 492). -/
def ProviderSkips (p : ProviderRun) : Prop :=
  p.fetch = .throw ∨ p.fetch = .notOk ∨
    ∃ b, p.fetch = .ok b ∧
      (p.parse b = .threw ∨ p.parse b = .nullRes ∨ p.parse b = .numRes none)

/-- A native provider failing for this resolution: `safeFetch` threw, or the
parser returned `null`. -/
def NativeRunFails (r : NativeRun) : Prop :=
  (∃ m, r.fetch = .error m) ∨ ∃ b, r.fetch = .ok b ∧ r.parser b = none

/-- A TronScan-shaped payload holding a USDT record with raw balance
`"1500000"` (smallest unit). -/
def goodTrcPayload : JsonV :=
  .obj [("trc20", .arr [.obj [("symbol", .str "USDT"), ("balance", .str "1500000")]])]

/-- A TronGrid-shaped payload holding a USDT record with raw balance
`"1500000"`. -/
def goodTgPayload : JsonV :=
  .obj [("data", .arr [.obj [("tokenAbbr", .str "USDT"), ("balance", .str "1500000")]])]

/-- A native provider whose `safeFetch` exhausted its retries. -/
def failingNativeRun : NativeRun := ⟨.error "All retries failed", fun _ => none⟩

/-- Helper: when every provider outcome in the list is of the skipping kind,
the `tryProviders` loop falls through every iteration and returns the
aggregate failure object. -/
theorem tryProvidersRun_all_skip :
    ∀ runs : List ProviderRun, (∀ p ∈ runs, ProviderSkips p) →
      (tryProvidersRun runs).1 = ⟨none, "failed", none, "All providers failed"⟩
  | [], _ => rfl
  | p :: rest, h => by
    have ih := tryProvidersRun_all_skip rest (fun q hq => h q (List.mem_cons_of_mem p hq))
    rcases h p (List.mem_cons_self p rest) with hf | hf | ⟨b, hb, hp⟩
    · simp [tryProvidersRun, hf, ih]
    · simp [tryProvidersRun, hf, ih]
    · rcases hp with hp | hp | hp <;> simp [tryProvidersRun, hb, hp, ih]

/-- Helper: when every native provider fails, `getBalanceFromProviders`
throws its aggregate error. -/
theorem getBalanceFromProviders_all_fail :
    ∀ runs : List NativeRun, (∀ r ∈ runs, NativeRunFails r) →
      getBalanceFromProviders runs = .error "All providers failed."
  | [], _ => rfl
  | r :: rest, h => by
    have ih := getBalanceFromProviders_all_fail rest (fun q hq => h q (List.mem_cons_of_mem r hq))
    rcases h r (List.mem_cons_self r rest) with ⟨m, hm⟩ | ⟨b, hb, hp⟩
    · simp [getBalanceFromProviders, hm, ih]
    · simp [getBalanceFromProviders, hb, hp, ih]

/-- C1 counterexample: on the USDT-TRC route, the first provider's
normalizer returns a Failure result (`"USDT token not found"` on an empty
payload) while the second provider's body would normalize to a Success —
yet `tryProviders` returns the first provider's failure (source = first
provider's name) instead of advancing, refuting the claim that a normalizer
Failure makes the resolver advance to the next provider. -/
theorem C1_failure_result_not_advanced :
    (usdtTrcRoute (.ok (.obj [])) (.ok goodTgPayload)).1 =
      ⟨"USDT-TRC20", some 0, "failed", some "USDT token not found", trcProviderName⟩ ∧
    (tronGridParse goodTgPayload).status = "success" :=
  ⟨rfl, rfl⟩

/-- C1 amended: the resolver advances to the next provider exactly on the
skipping outcomes (thrown fetch, non-ok response, thrown parse, `null`/NaN
non-object result); a structured Failure result from a normalizer instead
terminates the resolution immediately with that provider's name as
source. -/
theorem C1_advance_on_throw_only (p : ProviderRun) (rest : List ProviderRun) :
    (ProviderSkips p →
      tryProvidersRun (p :: rest) = ((tryProvidersRun rest).1, (tryProvidersRun rest).2 + 1)) ∧
    (∀ b r, p.fetch = .ok b → p.parse b = .objRes r → r.status ≠ "success" →
      (tryProvidersRun (p :: rest)).1 = ⟨some r.balance, "failed", r.reason, p.name⟩) := by
  constructor
  · rintro (hf | hf | ⟨b, hb, hp | hp | hp⟩) <;> simp [tryProvidersRun, *]
  · intro b r hb hp hs
    simp [tryProvidersRun, hb, hp, hs]

/-- Witness for C1's amended theorem at concrete inputs: a thrown fetch
advances past the provider; a parse Failure result from the TronScan
provider is returned as-is. -/
theorem C1_advance_on_throw_only_witness :
    tryProvidersRun [⟨"A", .throw, fun _ => .nullRes⟩] =
      ((tryProvidersRun []).1, (tryProvidersRun []).2 + 1) ∧
    (tryProvidersRun [trcProviderRun (.ok (.obj []))]).1 =
      ⟨some 0, "failed", some "USDT token not found", trcProviderName⟩ := by
  refine ⟨(C1_advance_on_throw_only ⟨"A", .throw, fun _ => .nullRes⟩ []).1 (Or.inl rfl), ?_⟩
  exact (C1_advance_on_throw_only (trcProviderRun (.ok (.obj []))) []).2 (.obj [])
    ⟨0, "failed", some "USDT token not found"⟩ rfl rfl (by decide)

/-- C2 counterexample: the USDT-TRC route holds no cache — every
invocation, including one made immediately after a successful identical
call, runs `tryProviders` afresh and performs a network fetch (count 1, not
0), refuting the claim that token-class resolutions are served from a
60-second cache. -/
theorem C2_token_route_always_fetches :
    (usdtTrcRoute (.ok goodTrcPayload) .throw).1.status = "success" ∧
    (usdtTrcRoute (.ok goodTrcPayload) .throw).2 = 1 ∧
    (usdtTrcRoute (.ok goodTrcPayload) .throw).2 ≠ 0 :=
  ⟨rfl, rfl, by decide⟩

/-- C2 amended: only the native-coin class is cached.  For the native class,
a lookup within the TTL of a cached entry returns that value with the cache
unchanged and the resolver not invoked (zero network operations), and a
lookup with no entry invokes the resolver and writes the entry on
success. -/
theorem C2_native_cache_behavior (address : String) (now : ℤ) (c : Cache)
    (runs : List NativeRun) :
    (∀ e : CacheEntry, c address = some e → now - e.time < CACHE_TTL →
      getBalance address now c runs = (.ok e.value, c, false)) ∧
    (c address = none → ∀ v : ℚ, getBalanceFromProviders runs = .ok v →
      getBalance address now c runs = (.ok v, cacheSet c address ⟨v, now⟩, true)) := by
  constructor
  · intro e hc hf
    simp [getBalance, hc, hf]
  · intro hc v hv
    simp [getBalance, hc, hv]

/-- Witness for C2's amended theorem: a fresh hit at time 1 on an entry
written at time 0 is served from the cache; a miss resolves and stores. -/
theorem C2_native_cache_behavior_witness :
    getBalance "addr1" 1 (fun _ => some ⟨7, 0⟩) [] = (.ok 7, (fun _ => some ⟨7, 0⟩), false) ∧
    getBalance "addr1" 1 (fun _ => none) [⟨.ok (.num 3), fun _ => some 3⟩] =
      (.ok 3, cacheSet (fun _ => none) "addr1" ⟨3, 1⟩, true) := by
  constructor
  · exact (C2_native_cache_behavior "addr1" 1 (fun _ => some ⟨7, 0⟩) []).1 ⟨7, 0⟩ rfl (by decide)
  · exact (C2_native_cache_behavior "addr1" 1 (fun _ => none)
      [⟨.ok (.num 3), fun _ => some 3⟩]).2 rfl 3 rfl

/-- C3 counterexample: on a payload with no record matching USDT, the ERC-20
normalizer returns the bare number `0` — not a Failure result — and the
route consequently reports `status: "success"` with balance 0, refuting the
claim that every token normalizer yields `status: "failed"` with reason
`"USDT token not found"` in this situation. -/
theorem C3_erc_bare_zero_success :
    ercParse (.obj [("tokens", .arr [])]) = some 0 ∧
    (usdtErcRoute (.ok (.obj [("tokens", .arr [])]))).1 =
      ⟨"USDT-ERC20", some 0, "success", none, ercProviderName⟩ :=
  ⟨rfl, rfl⟩

/-- C3 amended: the TRC normalizer (a total function — it never raises)
returns the Failure result with reason `"USDT token not found"` whenever no
record of the payload matches; the ERC normalizer instead returns the bare
success value `0` in the same situation. -/
theorem C3_not_found_failure (dataT dataE : JsonV) (toksT toksE : List JsonV)
    (h1 : trcTokens dataT = some toksT) (h2 : ∀ t ∈ toksT, trcMatch t = false)
    (h3 : ercTokens dataE = some toksE) (h4 : ∀ t ∈ toksE, ercMatch t = false) :
    trcParse dataT = ⟨0, "failed", some "USDT token not found"⟩ ∧
    ercParse dataE = some 0 := by
  have hfT : toksT.find? trcMatch = none := by
    rw [List.find?_eq_none]
    intro t ht
    simp [h2 t ht]
  have hfE : toksE.find? ercMatch = none := by
    rw [List.find?_eq_none]
    intro t ht
    simp [h4 t ht]
  constructor
  · simp [trcParse, h1, hfT]
  · simp [ercParse, h3, hfE]

/-- Witness for C3's amended theorem on the empty object payload. -/
theorem C3_not_found_failure_witness :
    trcParse (.obj []) = ⟨0, "failed", some "USDT token not found"⟩ ∧
    ercParse (.obj []) = some 0 :=
  C3_not_found_failure (.obj []) (.obj []) [] [] rfl
    (fun t ht => absurd ht (List.not_mem_nil t)) rfl
    (fun t ht => absurd ht (List.not_mem_nil t))

/-- C4 counterexample: when every native provider is exhausted, the native
resolver throws (`Except.error "All providers failed."`) rather than
returning a structured failure result — the route layer catches it and
serializes a 500 error body — and the token resolver's aggregate source
string is `"All providers failed"` (capital A), not `"all providers
failed"`; both points refute the claim as stated. -/
theorem C4_native_resolver_throws :
    getBalanceFromProviders [failingNativeRun] = .error "All providers failed." ∧
    (balanceRoute "addr" 0 (fun _ => none) [failingNativeRun]).1 =
      .errBody 500 "All providers failed." ∧
    (tryProvidersRun []).1.source = "All providers failed" ∧
    "All providers failed" ≠ "all providers failed" :=
  ⟨rfl, rfl, rfl, by decide⟩

/-- C4 amended: exhausting every provider of a token set yields the
structured result `status "failed"`, `source "All providers failed"` and
`tryProviders` never throws; the native-coin resolver instead throws
`"All providers failed."`, which the route adapter (not the core) converts
to an error response. -/
theorem C4_all_failed_aggregate (runs : List ProviderRun) (nruns : List NativeRun)
    (h1 : ∀ p ∈ runs, ProviderSkips p) (h2 : ∀ r ∈ nruns, NativeRunFails r) :
    (tryProvidersRun runs).1 = ⟨none, "failed", none, "All providers failed"⟩ ∧
    getBalanceFromProviders nruns = .error "All providers failed." :=
  ⟨tryProvidersRun_all_skip runs h1, getBalanceFromProviders_all_fail nruns h2⟩

/-- Witness for C4's amended theorem with one skipping token provider and
one failing native provider. -/
theorem C4_all_failed_aggregate_witness :
    (tryProvidersRun [⟨"A", .notOk, fun _ => .nullRes⟩]).1 =
      ⟨none, "failed", none, "All providers failed"⟩ ∧
    getBalanceFromProviders [failingNativeRun] = .error "All providers failed." := by
  refine C4_all_failed_aggregate _ _ ?_ ?_
  · intro p hp
    obtain rfl := List.mem_singleton.mp hp
    exact Or.inr (Or.inl rfl)
  · intro r hr
    obtain rfl := List.mem_singleton.mp hr
    exact Or.inl ⟨"All retries failed", rfl⟩

/-- C6: on a URL where every attempt fails, `safeFetch` with the default
maximum performs exactly 3 attempts, sleeps linearly growing delays of
1, 2, 3 base units (1000 ms) — in particular one base unit before retry 2
and two before retry 3 — and surfaces the single aggregated
`"All retries failed"` error; no intermediate attempt failure appears in
the result. -/
theorem C6_retry_exhaustion (attempts : ℕ → Option JsonV)
    (h : ∀ i, i < 3 → attempts i = none) :
    safeFetch attempts = ⟨.error "All retries failed", 3, [1000, 2000, 3000]⟩ := by
  have h0 := h 0 (by decide)
  have h1 := h 1 (by decide)
  have h2 := h 2 (by decide)
  simp [safeFetch, safeFetchGo, h0, h1, h2]

/-- Witness for C6 with the everywhere-failing attempt oracle. -/
theorem C6_retry_exhaustion_witness :
    safeFetch (fun _ => none) = ⟨.error "All retries failed", 3, [1000, 2000, 3000]⟩ :=
  C6_retry_exhaustion (fun _ => none) (fun _ _ => rfl)

/-- C9: when the resolver invocation ends in failure, `getBalance` leaves
the cache exactly as it was (no entry created or overwritten), and the
failure propagates. -/
theorem C9_failure_not_cached (address : String) (now : ℤ) (c : Cache)
    (runs : List NativeRun) (m : String)
    (hfail : getBalanceFromProviders runs = .error m) :
    (getBalance address now c runs).2.1 = c ∧
    ((getBalance address now c runs).2.2 = true →
      (getBalance address now c runs).1 = .error m) := by
  cases hc : c address with
  | none => simp [getBalance, hc, hfail]
  | some e =>
    by_cases hf : now - e.time < CACHE_TTL
    · simp [getBalance, hc, hf]
    · simp [getBalance, hc, hf, hfail]

/-- Witness for C9 on an empty cache and an exhausted provider list. -/
theorem C9_failure_not_cached_witness :
    (getBalance "a" 0 (fun _ => none) [failingNativeRun]).2.1 = (fun _ => none) ∧
    ((getBalance "a" 0 (fun _ => none) [failingNativeRun]).2.2 = true →
      (getBalance "a" 0 (fun _ => none) [failingNativeRun]).1 =
        .error "All providers failed.") :=
  C9_failure_not_cached "a" 0 (fun _ => none) [failingNativeRun] "All providers failed." rfl

/-- C10: the native route's success body always carries `cached: false` —
here even on a fresh cache hit where the resolver was not invoked at all,
so the field never distinguishes hits from misses. -/
theorem C10_cached_field_false (address : String) (now : ℤ) (c : Cache)
    (runs : List NativeRun) (e : CacheEntry)
    (hc : c address = some e) (hfresh : now - e.time < CACHE_TTL) :
    (balanceRoute address now c runs).1 = .okBody address e.value false ∧
    (getBalance address now c runs).2.2 = false := by
  simp [balanceRoute, getBalance, hc, hfresh]

/-- Witness for C10 on a concrete fresh cache entry. -/
theorem C10_cached_field_false_witness :
    (balanceRoute "a" 1 (fun _ => some ⟨5, 0⟩) []).1 = .okBody "a" 5 false ∧
    (getBalance "a" 1 (fun _ => some ⟨5, 0⟩) []).2.2 = false :=
  C10_cached_field_false "a" 1 (fun _ => some ⟨5, 0⟩) [] ⟨5, 0⟩ rfl (by decide)

/-- A USDT record carrying an explicit `decimals: 0` field. -/
def tokenZeroDecimals : JsonV :=
  .obj [("symbol", .str "USDT"), ("balance", .str "5"), ("decimals", .num 0)]

/-- C7 counterexample: a matched record with the numeric decimals value `0`
is scaled by the default exponent 6, not by `10^0` — `Number(...) || 6`
replaces `0` by `6` — so a raw balance of `"5"` with `decimals: 0` yields
`5 / 10^6`, not `5`, refuting the claim that a present numeric decimals
value of 0 is used. -/
theorem C7_zero_decimals_defaulted :
    trcDecimals tokenZeroDecimals = 6 ∧
    trcParse (.obj [("trc20", .arr [tokenZeroDecimals])]) =
      ⟨5 / 1000000, "success", none⟩ ∧
    (5 / 1000000 : ℚ) ≠ 5 := by
  refine ⟨by decide, ?_, by norm_num⟩
  have h : trcParse (.obj [("trc20", .arr [tokenZeroDecimals])]) =
      ⟨1 * ((5 : ℕ) : ℚ) / qPow10 6, "success", none⟩ := rfl
  rw [h]
  have hq : qPow10 6 = 1000000 := by
    norm_num [qPow10, Rat.den_ofNat, Rat.num_ofNat]
  rw [hq]
  norm_num

/-- C7 amended: the record's own decimals value is used whenever it is
present, numeric and nonzero; the default 6 is applied when the field is
absent (through the whole candidate chain), non-numeric, or zero — for the
TRC normalizer and the ERC normalizer alike. -/
theorem C7_decimals_rule (t : JsonV) (d : ℚ) (s : String) :
    (t.get "decimals" = some (.num d) → d ≠ 0 → trcDecimals t = d) ∧
    (t.get "decimals" = some (.num 0) → trcDecimals t = 6) ∧
    (t.get "decimals" = none → t.get "tokenDecimal" = none →
      t.get "decimals_str" = none → trcDecimals t = 6) ∧
    (t.get "decimals" = some (.str s) → jsNumber (.str s) = none → trcDecimals t = 6) ∧
    (jsOptChain t "tokenInfo" "decimals" = some (.num d) → d ≠ 0 → ercDecimals t = d) ∧
    (jsOptChain t "tokenInfo" "decimals" = some (.num 0) → ercDecimals t = 6) ∧
    (jsOptChain t "tokenInfo" "decimals" = none → t.get "decimals" = none →
      ercDecimals t = 6) := by
  refine ⟨?_, ?_, ?_, ?_, ?_, ?_, ?_⟩
  · intro h hd
    simp [trcDecimals, jsNn, h, jsNumber, jsOrNum, hd]
  · intro h
    simp [trcDecimals, jsNn, h, jsNumber, jsOrNum]
  · intro h1 h2 h3
    simp [trcDecimals, jsNn, h1, h2, h3, jsNumber, jsOrNum]
  · intro h hs
    simp [trcDecimals, jsNn, h, hs, jsOrNum]
  · intro h hd
    simp [ercDecimals, jsNn, h, jsNumber, jsOrNum, hd]
  · intro h
    simp [ercDecimals, jsNn, h, jsNumber, jsOrNum]
  · intro h1 h2
    simp [ercDecimals, jsNn, h1, h2, jsNumber, jsOrNum]

/-- Witness for C7's amended theorem: decimals 3 is used as-is; decimals 0
defaults to 6; an ERC record's `tokenInfo.decimals` 8 is used as-is. -/
theorem C7_decimals_rule_witness :
    trcDecimals (.obj [("decimals", .num 3)]) = 3 ∧
    trcDecimals (.obj [("decimals", .num 0)]) = 6 ∧
    ercDecimals (.obj [("tokenInfo", .obj [("decimals", .num 8)])]) = 8 :=
  ⟨(C7_decimals_rule (.obj [("decimals", .num 3)]) 3 "").1 rfl (by norm_num),
   (C7_decimals_rule (.obj [("decimals", .num 0)]) 0 "").2.1 rfl,
   (C7_decimals_rule (.obj [("tokenInfo", .obj [("decimals", .num 8)])]) 8 "").2.2.2.2.1
     rfl (by norm_num)⟩

/-- C8: a record matches when its (case-insensitively uppercased) symbol
equals USDT alone, or when its token-id chain equals the known canonical
contract id alone — either condition suffices — and a matching object
record inside the candidate container is found by the normalizer's `find`,
for the TronScan and the TronGrid normalizer alike. -/
theorem C8_match_either_condition (t : JsonV) (fs : List (String × JsonV))
    (hobj : t = .obj fs) :
    (trcSymbol t = "USDT" → trcMatch t = true) ∧
    (trcTokenId t = "TXLAQ63Xg1NAzckPwKHvzw7CSEmLMEqcdj" → trcMatch t = true) ∧
    (trcMatch t = true →
      trcTokens (.obj [("trc20", .arr [t])]) = some [t] ∧
      List.find? trcMatch [t] = some t) ∧
    (tgSymbol t = "USDT" → tgMatch t = true) ∧
    (tgTokenId t = "TXLAQ63XG1NAZCKPWKHVZW7CSEMLMEQCDJ" → tgMatch t = true) ∧
    (tgMatch t = true →
      tgTokens (.obj [("data", .arr [t])]) = some [t] ∧
      List.find? tgMatch [t] = some t) := by
  refine ⟨?_, ?_, ?_, ?_, ?_, ?_⟩
  · intro h
    simp [trcMatch, h]
  · intro h
    simp [trcMatch, h, knownTokenIds]
  · intro h
    subst hobj
    refine ⟨?_, by simp [List.find?, h]⟩
    simp [trcTokens, trcCandidates, trcPayloadOf, JsonV.get, jsOrOpt, jsOrVV,
      jsFalsyV, List.lookup, isObjectLike, List.filter]
  · intro h
    simp [tgMatch, h]
  · intro h
    simp [tgMatch, h]
  · intro h
    subst hobj
    refine ⟨?_, by simp [List.find?, h]⟩
    simp [tgTokens, JsonV.get, jsOrOpt, jsOrVV, jsFalsyV, List.lookup]

/-- Witness for C8 at concrete records: id-only match, lowercase-symbol-only
match, TronGrid contract-field match, and location by `find?`. -/
theorem C8_match_either_condition_witness :
    trcMatch (.obj [("tokenId", .str "TXLAQ63Xg1NAzckPwKHvzw7CSEmLMEqcdj")]) = true ∧
    trcMatch (.obj [("symbol", .str "usdt")]) = true ∧
    tgMatch (.obj [("contract", .str "TXLAQ63Xg1NAzckPwKHvzw7CSEmLMEqcdj")]) = true ∧
    List.find? trcMatch [JsonV.obj [("tokenId", .str "TXLAQ63Xg1NAzckPwKHvzw7CSEmLMEqcdj")]] =
      some (.obj [("tokenId", .str "TXLAQ63Xg1NAzckPwKHvzw7CSEmLMEqcdj")]) := by
  refine ⟨(C8_match_either_condition _ _ rfl).2.1 (by decide),
    (C8_match_either_condition _ _ rfl).1 (by decide),
    (C8_match_either_condition _ _ rfl).2.2.2.2.1 (by decide), ?_⟩
  exact ((C8_match_either_condition _ _ rfl).2.2.1
    ((C8_match_either_condition _ _ rfl).2.1 (by decide))).2

/-- Helper: a decimal digit is not a whitespace character. -/
theorem digitNotWs (c : Char) (h : c.isDigit = true) : c.isWhitespace = false := by
  cases hw : c.isWhitespace
  · rfl
  · exfalso
    simp only [Char.isWhitespace, Bool.or_eq_true, decide_eq_true_eq] at hw
    have hc : c = ' ' ∨ c = '\t' ∨ c = '\r' ∨ c = '\n' := by tauto
    rcases hc with rfl | rfl | rfl | rfl <;> exact absurd h (by decide)

/-- Helper: whitespace-dropping leaves an all-digit list unchanged. -/
theorem dropWhileWsOfDigits (cs : List Char) (h : ∀ c ∈ cs, c.isDigit = true) :
    cs.dropWhile Char.isWhitespace = cs := by
  cases cs with
  | nil => rfl
  | cons c r =>
    simp [List.dropWhile_cons, digitNotWs c (h c (List.mem_cons_self c r))]

/-- Helper: `Number`'s trim leaves an all-digit string unchanged. -/
theorem wsTrimOfDigits (cs : List Char) (h : ∀ c ∈ cs, c.isDigit = true) :
    wsTrim cs = cs := by
  unfold wsTrim
  rw [dropWhileWsOfDigits cs h]
  rw [dropWhileWsOfDigits cs.reverse (fun c hc => h c (List.mem_reverse.mp hc))]
  exact List.reverse_reverse cs

/-- Helper: `takeWhile isDigit` keeps a whole all-digit list. -/
theorem takeWhileDigitsOfDigits (cs : List Char) (h : ∀ c ∈ cs, c.isDigit = true) :
    cs.takeWhile Char.isDigit = cs := by
  induction cs with
  | nil => rfl
  | cons c r ih =>
    simp [List.takeWhile_cons, h c (List.mem_cons_self c r),
      ih (fun x hx => h x (List.mem_cons_of_mem c hx))]

/-- Helper: `dropWhile isDigit` exhausts an all-digit list. -/
theorem dropWhileDigitsOfDigits (cs : List Char) (h : ∀ c ∈ cs, c.isDigit = true) :
    cs.dropWhile Char.isDigit = [] := by
  induction cs with
  | nil => rfl
  | cons c r ih =>
    simp [List.dropWhile_cons, h c (List.mem_cons_self c r),
      ih (fun x hx => h x (List.mem_cons_of_mem c hx))]

/-- Helper: an all-digit list starts with no sign character. -/
theorem splitSignOfDigits (cs : List Char) (h : ∀ c ∈ cs, c.isDigit = true) :
    splitSign cs = (false, cs) := by
  cases cs with
  | nil => rfl
  | cons c r =>
    have hc := h c (List.mem_cons_self c r)
    have h1 : c ≠ '-' := by
      intro e
      subst e
      exact absurd hc (by decide)
    have h2 : c ≠ '+' := by
      intro e
      subst e
      exact absurd hc (by decide)
    simp [splitSign, h1, h2]

/-- Helper: the strict decimal parse of a nonempty all-digit list succeeds
with its exact integer value. -/
theorem parseDecCoreOfDigits (cs : List Char) (hne : cs ≠ [])
    (h : ∀ c ∈ cs, c.isDigit = true) :
    parseDecCore cs = some ((digitsVal cs : ℚ)) := by
  have hemp : cs.isEmpty = false := by
    cases cs
    · exact absurd rfl hne
    · rfl
  simp only [parseDecCore, splitSignOfDigits cs h, takeWhileDigitsOfDigits cs h,
    dropWhileDigitsOfDigits cs h, hemp]
  simp

/-- Helper: JS `Number` on a nonempty all-digit string is not NaN and equals
the exact integer value of the digits. -/
theorem jsNumberDigitStr (s : String) (hne : s.data ≠ [])
    (h : ∀ c ∈ s.data, c.isDigit = true) :
    jsNumber (.str s) = some ((digitsToNat s : ℚ)) := by
  have hemp : (s.data).isEmpty = false := by
    cases hd : s.data
    · exact absurd hd hne
    · rfl
  simp only [jsNumber, wsTrimOfDigits s.data h, hemp]
  exact parseDecCoreOfDigits s.data hne h

/-- A TronScan-shaped USDT record whose raw balance is the given string. -/
def usdtRecordWith (s : String) : JsonV :=
  .obj [("symbol", .str "USDT"), ("balance", .str s)]

/-- C5 counterexample: for the 27-digit raw balance string (far above the
float-safe bound 2^53 - 1 = 9007199254740991) the direct `Number` parse is
not NaN, so the `isNaN` guard is false and the BigInt fallback path is NOT
taken — the claim that such balances go through the arbitrary-precision
fallback is refuted.  (In the real code the direct path divides a lossy
64-bit float, so the "no precision loss" part fails there too; the exact-ℚ
model shows the branch structure.) -/
theorem C5_direct_parse_no_fallback :
    trcUsesFallback (.str "123456789012345678901234567") = false ∧
    trcParse (.obj [("trc20", .arr [usdtRecordWith "123456789012345678901234567"])]) =
      ⟨(123456789012345678901234567 : ℚ) / 1000000, "success", none⟩ ∧
    (9007199254740991 : ℕ) < 123456789012345678901234567 := by
  have hdig : ∀ c ∈ ("123456789012345678901234567" : String).data, c.isDigit = true := by
    decide
  have hne : ("123456789012345678901234567" : String).data ≠ [] := by decide
  have hn := jsNumberDigitStr "123456789012345678901234567" hne hdig
  refine ⟨by simp [trcUsesFallback, hn], ?_, by norm_num⟩
  have h : trcParse (.obj [("trc20", .arr [usdtRecordWith "123456789012345678901234567"])]) =
      trcNumericResult (.str "123456789012345678901234567") 6 := rfl
  rw [h]
  simp only [trcNumericResult, hn]
  have hdnat : digitsToNat "123456789012345678901234567" =
      123456789012345678901234567 := by decide
  have hd : (digitsToNat "123456789012345678901234567" : ℚ) =
      (123456789012345678901234567 : ℚ) := by
    rw [hdnat]
    norm_num
  have hq : qPow10 6 = 1000000 := by
    norm_num [qPow10, Rat.den_ofNat, Rat.num_ofNat]
  rw [hd, hq]

/-- C5 amended: a raw balance that is a nonempty decimal-digit string —
of any magnitude — is parsed by the direct `Number` branch (the BigInt
fallback is bypassed: it runs only when the direct parse is NaN, e.g. for
strings with separator characters), and in the exact-rational model the
computed balance is the exact digits value divided by `10^decimals`
(default 6).  In the actual code the direct branch divides a 64-bit float,
so exactness beyond 2^53 is not guaranteed there; the fallback itself also
converts through `Number(big)` before dividing. -/
theorem C5_digit_string_direct_path (s : String) (hne : s.data ≠ [])
    (hdig : ∀ c ∈ s.data, c.isDigit = true) :
    trcUsesFallback (.str s) = false ∧
    jsNumber (.str s) = some ((digitsToNat s : ℚ)) ∧
    trcParse (.obj [("trc20", .arr [usdtRecordWith s])]) =
      ⟨(digitsToNat s : ℚ) / qPow10 6, "success", none⟩ := by
  have hn := jsNumberDigitStr s hne hdig
  refine ⟨by simp [trcUsesFallback, hn], hn, ?_⟩
  have h : trcParse (.obj [("trc20", .arr [usdtRecordWith s])]) =
      trcNumericResult (.str s) 6 := rfl
  rw [h]
  simp only [trcNumericResult, hn]

/-- Witness for C5's amended theorem at a concrete 20-digit balance. -/
theorem C5_digit_string_direct_path_witness :
    trcUsesFallback (.str "12345678901234567890") = false ∧
    jsNumber (.str "12345678901234567890") =
      some ((digitsToNat "12345678901234567890" : ℚ)) ∧
    trcParse (.obj [("trc20", .arr [usdtRecordWith "12345678901234567890"])]) =
      ⟨(digitsToNat "12345678901234567890" : ℚ) / qPow10 6, "success", none⟩ :=
  C5_digit_string_direct_path "12345678901234567890" (by decide) (by decide)
